import Mathlib

/-!
Shallow embedding of the named-pipe library (src/npipe_windows.go).

Every function the Go code computes itself is translated directly.  The OS
entry points (CreateNamedPipeW, ConnectNamedPipe, DisconnectNamedPipe,
WaitNamedPipeW, CreateEventW, WaitForSingleObject, GetOverlappedResult,
ReadFile, WriteFile, CreateFile, CloseHandle, CancelIoEx) are modelled as
oracle arguments describing the outcome the OS produces for each call.
Time is modelled as Int nanoseconds, matching the unit of Go time.Duration
and time.Time differences; handles are Nat, with 0 playing the role of the
zero syscall.Handle.
-/

namespace NPipe

/-- Windows error code declared in the source: a client connected between
CreateNamedPipe and ConnectNamedPipe. -/
def error_pipe_connected : Nat := 0x217

/-- Windows error code declared in the source: all pipe instances are busy. -/
def error_pipe_busy : Nat := 0xE7

/-- Windows error code declared in the source: WaitNamedPipeW timed out. -/
def error_sem_timeout : Nat := 0x79

/-- Windows error code declared in the source: badly formed pipe path. -/
def error_bad_pathname : Nat := 0xA1

/-- Windows error code declared in the source: invalid name. -/
def error_invalid_name : Nat := 0x7B

/-- Windows error code declared in the source: overlapped I/O incomplete. -/
def error_io_incomplete : Nat := 0x3e4

/-- syscall.ERROR_FILE_NOT_FOUND: the server has not created the pipe yet. -/
def ERROR_FILE_NOT_FOUND : Nat := 0x2

/-- syscall.ERROR_IO_PENDING: the overlapped request was queued. -/
def ERROR_IO_PENDING : Nat := 0x3E5

/-- syscall.ERROR_BROKEN_PIPE: the other end of the pipe was closed. -/
def ERROR_BROKEN_PIPE : Nat := 0x6D

/-- syscall.ERROR_ACCESS_DENIED: what CreateNamedPipeW reports when the
first-instance flag is set and the name is already claimed. -/
def ERROR_ACCESS_DENIED : Nat := 0x5

/-- syscall.EINVAL; only its distinctness from the other codes matters. -/
def EINVAL : Nat := 22

/-- Go error values as they occur in this package: raw syscall.Errno
values, os.PathError values wrapping an errno, the package type PipeError,
and io.EOF.  A nil Go error is Option.none at every use site. -/
inductive GoError where
  | errno (code : Nat)
  | pathError (op : String) (path : String) (code : Nat)
  | pipeError (msg : String) (timeout : Bool)
  | eof
deriving DecidableEq, Repr

/-- PipeError is an error related to a call to a pipe. -/
structure PipeError where
  msg : String
  timeout : Bool
deriving DecidableEq, Repr

/-- Error implements the error interface. -/
def PipeError.Error (e : PipeError) : String := e.msg

/-- Timeout implements net.AddrError.Timeout. -/
def PipeError.Timeout (e : PipeError) : Bool := e.timeout

/-- Temporary implements net.AddrError.Temporary; the body is the constant
false. -/
def PipeError.Temporary (_e : PipeError) : Bool := false

/-- Injection of a PipeError value into the error interface. -/
def PipeError.toGoError (e : PipeError) : GoError := .pipeError e.msg e.timeout

/-- Timeout query through the net.Error interface on an arbitrary error:
true exactly for a PipeError whose timeout field is set.  The errno codes
for which syscall.Errno answers true (EAGAIN, EWOULDBLOCK, ETIMEDOUT) are
never produced in this package. -/
def GoError.isNetTimeout : GoError → Bool
  | .pipeError _ t => t
  | _ => false

/-- isPipeNotReady checks the error to see if it indicates the pipe is not
ready: an os.PathError wrapping error_pipe_busy (another client just
grabbed the open pipe end), or a raw ERROR_FILE_NOT_FOUND errno (the
server has not created the pipe yet). -/
def isPipeNotReady : GoError → Bool
  | .pathError _ _ code => code == error_pipe_busy
  | .errno code => code == ERROR_FILE_NOT_FOUND
  | _ => false

/-- INFINITE timeout for WaitForSingleObject. -/
def INFINITE : Nat := 0xFFFFFFFF

/-- WAIT_OBJECT_0 status word. -/
def WAIT_OBJECT_0 : Nat := 0

/-- WAIT_FAILED status word. -/
def WAIT_FAILED : Nat := 0xFFFFFFFF

/-- WAIT_TIMEOUT status word. -/
def WAIT_TIMEOUT : Nat := 0x102

/-- The timeout argument waitForCompletion passes to WaitForSingleObject:
the source treats mills equal to zero as the no-deadline case and requests
an INFINITE wait; otherwise it converts mills to uint32. -/
def wfsoArg (mills : Nat) : Nat :=
  if mills = 0 then INFINITE else mills % 2 ^ 32

/-- Outcomes the OS produces for one overlapped wait: the result of
WaitForSingleObject as a function of the timeout argument passed to it
(status word and call error), and the result of GetOverlappedResult
(transferred byte count and completion error). -/
structure WaitEnv where
  wfso : Nat → Nat × Option GoError
  transferred : Nat
  resultErr : Option GoError

/-- waitForCompletion waits for an asynchronous I/O request to complete:
wait on the completion event (INFINITE when mills is zero), return a wait
call error verbatim, map the status word (object signalled, wait failed,
wait timeout, or anything else), then query GetOverlappedResult for the
transferred count and the completion error.  The WAIT_FAILED and
default-branch message texts abbreviate the formatted Go messages; the
branch structure and the timeout flags are kept exact. -/
def waitForCompletion (mills : Nat) (env : WaitEnv) : Nat × Option GoError :=
  let r := env.wfso (wfsoArg mills)
  match r.2 with
  | some e => (0, some e)
  | none =>
    if r.1 = WAIT_OBJECT_0 then
      (env.transferred, env.resultErr)
    else if r.1 = WAIT_FAILED then
      (0, some (GoError.pipeError "WaitForSingleObject failed" false))
    else if r.1 = WAIT_TIMEOUT then
      (0, some (GoError.pipeError "wait timeout" true))
    else
      (0, some (GoError.pipeError "WaitForSingleObject unexpected status" false))

/-- Nanoseconds per millisecond: Go time.Millisecond as a time.Duration. -/
def millisecond : Int := 1000000

/-- Completion-status pair carried by Read and Write into completeRequest:
the transferred count and the issue-time error of ReadFile or WriteFile. -/
structure IoData where
  n : Nat
  err : Option GoError
deriving DecidableEq, Repr

/-- True when the issue-time error says the request is still pending: the
source compares the error against error_io_incomplete and against
syscall.ERROR_IO_PENDING, which only a raw errno can equal. -/
def isPendingErr : Option GoError → Bool
  | some (.errno code) => code == error_io_incomplete || code == ERROR_IO_PENDING
  | _ => false

/-- The wait budget in milliseconds computed by completeRequest: zero when
the deadline pointer is nil, the truncated millisecond count when the
deadline is strictly in the future, and zero again when the deadline is
now or past.  The source computes the positive case by printing the
duration quotient in decimal and parsing it back with strconv.Atoi, which
is the identity on the printed number. -/
def completeRequestMills (deadline : Option Int) (now : Int) : Nat :=
  match deadline with
  | none => 0
  | some d => if d - now > 0 then ((d - now) / millisecond).toNat else 0

/-- completeRequest looks at the issue-time data to see if the request is
pending; if so it computes the remaining wait budget from the deadline and
delegates to waitForCompletion, replacing the data with the wait outcome.
The CancelIoEx issued when the wait outcome is a net timeout is a
side effect on the OS request and does not change the returned values.
Finally a broken-pipe error is rewritten to io.EOF, because Go RPC expects
an EOF when the other end of the connection was closed. -/
def completeRequest (data : IoData) (deadline : Option Int) (now : Int)
    (env : WaitEnv) : Nat × Option GoError :=
  let data2 :=
    if isPendingErr data.err then
      let r := waitForCompletion (completeRequestMills deadline now) env
      IoData.mk r.1 r.2
    else data
  if data2.err = some (GoError.errno ERROR_BROKEN_PIPE) then
    (data2.n, some GoError.eof)
  else
    (data2.n, data2.err)

/-- PipeConn is the implementation of the net.Conn interface for named
pipe connections: the OS handle, the address, and the two deadline fields
(none models a nil pointer, some an absolute time in nanoseconds). -/
structure PipeConn where
  handle : Nat
  addr : String
  readDeadline : Option Int
  writeDeadline : Option Int
deriving DecidableEq, Repr

/-- Outcomes the OS produces during one Read or Write call: the result of
CreateEventW inside newOverlapped (an error aborts the call before any
I/O), the synchronous result of ReadFile or WriteFile on the handle, and
the wait outcomes consumed if the request turns out to be pending. -/
structure IoEnv where
  overlappedErr : Option GoError
  issued : IoData
  wait : WaitEnv

/-- Read: create the overlapped event, issue ReadFile against the stored
handle, then resolve through completeRequest under the read deadline.
PipeConn carries no closed flag, so no closed-state check exists here. -/
def PipeConn.Read (c : PipeConn) (env : IoEnv) (now : Int) : Nat × Option GoError :=
  match env.overlappedErr with
  | some e => (0, some e)
  | none => completeRequest env.issued c.readDeadline now env.wait

/-- Write: create the overlapped event, issue WriteFile against the stored
handle, then resolve through completeRequest under the write deadline. -/
def PipeConn.Write (c : PipeConn) (env : IoEnv) (now : Int) : Nat × Option GoError :=
  match env.overlappedErr with
  | some e => (0, some e)
  | none => completeRequest env.issued c.writeDeadline now env.wait

/-- Close: the body is a single CloseHandle call on the stored handle,
whose outcome is returned; the connection value itself is not modified and
no closed flag is recorded anywhere. -/
def PipeConn.Close (c : PipeConn) (closeErr : Option GoError) :
    PipeConn × Option GoError :=
  (c, closeErr)

/-- pipe_access_duplex from the openMode constant block. -/
def pipe_access_duplex : Nat := 0x3

/-- syscall.FILE_FLAG_OVERLAPPED. -/
def FILE_FLAG_OVERLAPPED : Nat := 0x40000000

/-- file_flag_first_pipe_instance: makes CreateNamedPipeW fail when an
instance of the name already exists. -/
def file_flag_first_pipe_instance : Nat := 0x00080000

/-- pipe_type_byte from the pipeMode constant block. -/
def pipe_type_byte : Nat := 0x0

/-- pipe_unlimited_instances from the constant block. -/
def pipe_unlimited_instances : Nat := 255

/-- The openMode argument createPipe passes to CreateNamedPipeW: duplex
access with overlapped I/O, plus the first-instance flag exactly when the
first parameter is set. -/
def createPipeMode (first : Bool) : Nat :=
  if first then
    pipe_access_duplex ||| FILE_FLAG_OVERLAPPED ||| file_flag_first_pipe_instance
  else
    pipe_access_duplex ||| FILE_FLAG_OVERLAPPED

/-- createPipe issues CreateNamedPipeW with the shared configuration:
openMode createPipeMode first, byte-type pipe, unlimited instances, and
512-byte buffers.  The OS outcome (new handle and error) is an oracle
keyed on the address and the openMode actually passed. -/
def createPipe (address : String) (first : Bool)
    (os : String → Nat → Nat × Option GoError) : Nat × Option GoError :=
  os address (createPipeMode first)

/-- PipeListener is a named pipe listener: the address, the stored
pipe-instance handle created at Listen time (0 for the zero handle), and
the closed flag. -/
structure PipeListener where
  addr : String
  handle : Nat
  closed : Bool
deriving DecidableEq, Repr

/-- badAddr builds the non-timeout PipeError for a malformed address.
The source message wraps the address in single quotation marks; they are
elided here, which no claim depends on. -/
def badAddr (addr : String) : PipeError :=
  PipeError.mk ("Invalid pipe address " ++ addr ++ ".") false

/-- Listen creates the pipe instance by calling createPipe with first set
to false (the call passing true is present in the source only as a
commented-out line), translates error_invalid_name to badAddr, propagates
any other error, and otherwise returns a listener holding the new handle
with the closed flag clear. -/
def Listen (address : String) (os : String → Nat → Nat × Option GoError) :
    Option PipeListener × Option GoError :=
  let r := createPipe address false os
  match r.2 with
  | some e =>
    if e = GoError.errno error_invalid_name then
      (none, some (badAddr address).toGoError)
    else
      (none, some e)
  | none => (some (PipeListener.mk address r.1 false), none)

/-- Outcomes the OS produces during one accept: the CreateNamedPipeW
outcome consumed only when the stored handle is zero, the CreateEventW
outcome inside newOverlapped, the ConnectNamedPipe outcome (none models a
nil error), and the wait outcomes consumed when the connect is pending. -/
structure AcceptEnv where
  createRes : Nat × Option GoError
  overlappedErr : Option GoError
  connectErr : Option GoError
  wait : WaitEnv

/-- The shared accept path.  A nil receiver, an empty address, or the
closed flag yield EINVAL.  The local handle variable is the stored handle;
only when the stored handle is zero is a new pipe instance created.  Then
an overlapped ConnectNamedPipe is issued: a nil or already-connected
outcome succeeds at once, a pending outcome delegates to
waitForCompletion, and any other error is returned.  No branch ever
writes the listener record, so the returned listener state is the input
unchanged. -/
def PipeListener._acceptPipe (l : PipeListener) (mills : Nat) (env : AcceptEnv) :
    (Option PipeConn × Option GoError) × PipeListener :=
  if l.addr = "" ∨ l.closed = true then
    ((none, some (GoError.errno EINVAL)), l)
  else
    match (if l.handle = 0 then env.createRes else (l.handle, none)) with
    | (_, some e) => ((none, some e), l)
    | (h, none) =>
      match env.overlappedErr with
      | some e => ((none, some e), l)
      | none =>
        match env.connectErr with
        | none => ((some (PipeConn.mk h l.addr none none), none), l)
        | some ce =>
          if ce = GoError.errno error_pipe_connected then
            ((some (PipeConn.mk h l.addr none none), none), l)
          else
            match
              (if ce = GoError.errno error_io_incomplete ∨
                  ce = GoError.errno ERROR_IO_PENDING then
                (waitForCompletion mills env.wait).2
              else some ce) with
            | some e => ((none, some e), l)
            | none => ((some (PipeConn.mk h l.addr none none), none), l)

/-- AcceptTimeout accepts the next incoming call with the given
millisecond budget. -/
def PipeListener.AcceptTimeout (l : PipeListener) (mills : Nat) (env : AcceptEnv) :
    (Option PipeConn × Option GoError) × PipeListener :=
  PipeListener._acceptPipe l mills env

/-- AcceptPipe accepts the next incoming call with budget zero, which
waitForCompletion treats as wait forever. -/
def PipeListener.AcceptPipe (l : PipeListener) (env : AcceptEnv) :
    (Option PipeConn × Option GoError) × PipeListener :=
  PipeListener._acceptPipe l 0 env

/-- Result of PipeListener.Close: the listener state afterwards, the
returned error, and whether DisconnectNamedPipe was invoked. -/
structure CloseOutcome where
  listener : PipeListener
  err : Option GoError
  disconnected : Bool
deriving DecidableEq, Repr

/-- Close stops listening on the address: on an already-closed listener it
returns nil at once and touches nothing; otherwise it sets the closed
flag and, when a handle is held, disconnects that handle, clears the
stored slot, and returns the disconnect outcome. -/
def PipeListener.Close (l : PipeListener) (discErr : Option GoError) : CloseOutcome :=
  if l.closed then
    CloseOutcome.mk l none false
  else if l.handle ≠ 0 then
    CloseOutcome.mk (PipeListener.mk l.addr 0 true) discErr true
  else
    CloseOutcome.mk (PipeListener.mk l.addr l.handle true) none false

/-- Result of the Dial retry loop over a finite trace of attempt
outcomes: connected, an error returned to the caller, or still looping
when the trace is exhausted because every attempt so far was transient. -/
inductive DialOutcome where
  | ok (c : PipeConn)
  | err (e : GoError)
  | looping
deriving DecidableEq, Repr

/-- Dial runs the retry loop over a trace of outcomes of the dial helper
(each entry is one iteration).  A nil outcome returns the connection; an
outcome classified not-ready sleeps 100 milliseconds and retries; any
other error is returned to the caller.  The second component counts the
milliseconds slept across the run. -/
def Dial : List (Except GoError PipeConn) → DialOutcome × Nat
  | [] => (DialOutcome.looping, 0)
  | Except.ok c :: _ => (DialOutcome.ok c, 0)
  | Except.error e :: rest =>
    if isPipeNotReady e then
      let r := Dial rest
      (r.1, 100 + r.2)
    else
      (DialOutcome.err e, 0)

/-- One loop iteration of DialTimeout as the program observes it: the
outcome of the dial helper for that iteration and the clock reading
stored into now after the backoff sleep. -/
structure DialStep where
  outcome : Except GoError PipeConn
  tNext : Int

/-- The timeout message of DialTimeout, which names the address.  The
source message wraps the address in single quotation marks; they are
elided here, which no claim depends on. -/
def dialTimeoutMsg (address : String) : String :=
  "Timed out waiting for pipe " ++ address ++ " to come available"

/-- The retry loop of DialTimeout.  The loop runs while now is strictly
before the deadline.  Inside an iteration, a nil outcome returns the
connection; an error_sem_timeout outcome (the timeout of WaitNamedPipeW
itself) returns the timeout PipeError at once; a not-ready outcome sleeps
(the sleep is truncated near the deadline) and continues with the next
clock reading; any other error is returned.  Falling out of the loop
returns the timeout PipeError.  The second component counts the dial
attempts performed. -/
def DialTimeoutLoop (address : String) (deadline : Int) :
    Int → List DialStep → DialOutcome × Nat
  | now, steps =>
    if now < deadline then
      match steps with
      | [] => (DialOutcome.looping, 0)
      | s :: rest =>
        match s.outcome with
        | Except.ok c => (DialOutcome.ok c, 1)
        | Except.error e =>
          if e = GoError.errno error_sem_timeout then
            (DialOutcome.err (GoError.pipeError (dialTimeoutMsg address) true), 1)
          else if isPipeNotReady e then
            let r := DialTimeoutLoop address deadline s.tNext rest
            (r.1, 1 + r.2)
          else
            (DialOutcome.err e, 1)
    else
      (DialOutcome.err (GoError.pipeError (dialTimeoutMsg address) true), 0)

/-- DialTimeout acts like Dial but times out: the deadline is the first
clock reading plus the timeout duration, and the loop starts from the
second clock reading (the source reads the clock twice before the loop). -/
def DialTimeout (address : String) (timeout : Int) (t0 t1 : Int)
    (steps : List DialStep) : DialOutcome × Nat :=
  DialTimeoutLoop address (t0 + timeout) t1 steps

/-- A wait environment in which the completion event is already signalled
and the request finished cleanly with zero bytes transferred. -/
def idleWaitEnv : WaitEnv :=
  WaitEnv.mk (fun _ => (WAIT_OBJECT_0, none)) 0 none

/-- A wait environment that discloses which timeout argument reached
WaitForSingleObject: it answers the unknown status word 9 to an INFINITE
request and a plain WAIT_TIMEOUT to every bounded request. -/
def probeWaitEnv : WaitEnv :=
  WaitEnv.mk (fun arg => (if arg = INFINITE then 9 else WAIT_TIMEOUT, none)) 0 none

/-- An OS on which the pipe name is already claimed by a live listener:
CreateNamedPipeW refuses a first-instance creation with
ERROR_ACCESS_DENIED and grants every other creation a fresh instance
handle. -/
def osNameClaimed (h : Nat) : String → Nat → Nat × Option GoError :=
  fun _ mode =>
    if mode &&& file_flag_first_pipe_instance ≠ 0 then
      (0, some (GoError.errno ERROR_ACCESS_DENIED))
    else
      (h, none)

/-- C9: the Temporary query answers false on every PipeError value this
package produces, busy and not-yet-created conditions included. -/
theorem PipeError_Temporary_always_false :
    ∀ e : PipeError, PipeError.Temporary e = false := by
  intro e
  rfl

/-- C4 counterexample: Close the connection, then Read with an OS that
completes the read synchronously with 3 bytes; the Read returns 3 bytes
and no error at all, instead of failing with an invalid-state error. -/
theorem PipeConn_Read_after_Close_counterexample :
    PipeConn.Read (PipeConn.Close (PipeConn.mk 5 "p" none none) none).1
      (IoEnv.mk none (IoData.mk 3 none) idleWaitEnv) 0 = (3, none) := by
  decide

/-- C4 amended: Close performs only the CloseHandle call and leaves the
connection value unchanged; PipeConn records no closed state, so a Read
or a Write after Close behaves exactly as before Close for every OS
outcome — it operates on the same stored handle and can even succeed. -/
theorem PipeConn_Read_Write_after_Close_unchanged :
    ∀ (c : PipeConn) (e : Option GoError) (env : IoEnv) (now : Int),
      (PipeConn.Close c e).1 = c ∧
      PipeConn.Read (PipeConn.Close c e).1 env now = PipeConn.Read c env now ∧
      PipeConn.Write (PipeConn.Close c e).1 env now = PipeConn.Write c env now := by
  intro c e env now
  exact ⟨rfl, rfl, rfl⟩

/-- C2 counterexample: Listen does not tag its pipe instance as the first
instance — the openMode it passes has the first-instance bit clear — and
against an OS on which the name is already claimed by a live listener, a
second Listen returns a second Listener with no error instead of
failing. -/
theorem Listen_counterexample :
    createPipeMode false &&& file_flag_first_pipe_instance = 0 ∧
    Listen "pipename" (osNameClaimed 7) =
      (some (PipeListener.mk "pipename" 7 false), none) := by
  constructor
  · decide
  · rfl

/-- C2 amended: Listen creates its pipe instance with first set to false,
so the openMode it passes lacks the first-instance flag that
createPipeMode true would set; consequently, for every address and every
fresh handle, Listen against an OS on which the name is already claimed
still succeeds and returns a second listener holding the new handle. -/
theorem Listen_not_first_instance :
    (∀ (address : String) (h : Nat),
      Listen address (osNameClaimed h) =
        (some (PipeListener.mk address h false), none)) ∧
    createPipeMode false &&& file_flag_first_pipe_instance = 0 ∧
    createPipeMode true &&& file_flag_first_pipe_instance =
      file_flag_first_pipe_instance := by
  refine ⟨?_, by decide, by decide⟩
  intro address h
  rfl

/-- C1: the code presents an expired or sub-millisecond Read or Write
deadline as an infinite wait.  With the deadline equal to now, one
nanosecond behind now, or nine tenths of a millisecond ahead of now, the
computed wait budget is zero; waitForCompletion maps a zero budget to the
INFINITE WaitForSingleObject argument; and completeRequest on a pending
request under an expired deadline therefore performs the INFINITE wait:
the probing environment answers status 9 only to an INFINITE request, and
the unexpected-status outcome below shows that branch was taken, not the
immediate-timeout outcome the claim requires. -/
theorem completeRequest_expired_deadline_waits_forever :
    completeRequestMills (some 1000000000) 1000000000 = 0 ∧
    completeRequestMills (some 999999999) 1000000000 = 0 ∧
    completeRequestMills (some 1000900000) 1000000000 = 0 ∧
    wfsoArg 0 = INFINITE ∧
    completeRequest (IoData.mk 0 (some (GoError.errno ERROR_IO_PENDING)))
        (some 1000000000) 1000000000 probeWaitEnv =
      (0, some (GoError.pipeError "WaitForSingleObject unexpected status" false)) := by
  refine ⟨by decide, by decide, by decide, by decide, ?_⟩
  rfl

/-- C10: under a non-positive timeout duration and a monotone clock (the
second reading is not before the first), DialTimeout returns the timeout
PipeError naming the address, performs zero dial attempts, and the
returned error answers true to the net.Error timeout query. -/
theorem DialTimeout_nonpositive_immediate :
    ∀ (address : String) (d t0 t1 : Int) (steps : List DialStep),
      d ≤ 0 → t0 ≤ t1 →
      DialTimeout address d t0 t1 steps =
        (DialOutcome.err (GoError.pipeError (dialTimeoutMsg address) true), 0) ∧
      GoError.isNetTimeout (GoError.pipeError (dialTimeoutMsg address) true) = true := by
  intro address d t0 t1 steps hd ht
  have h : ¬ t1 < t0 + d := by omega
  unfold DialTimeout DialTimeoutLoop
  rw [if_neg h]
  exact ⟨rfl, rfl⟩

/-- C10 witness: a zero timeout at clock reading zero returns the timeout
error with zero attempts. -/
theorem DialTimeout_nonpositive_immediate_witness :
    DialTimeout "mypipe" 0 0 0 [] =
      (DialOutcome.err (GoError.pipeError (dialTimeoutMsg "mypipe") true), 0) ∧
    GoError.isNetTimeout (GoError.pipeError (dialTimeoutMsg "mypipe") true) = true :=
  DialTimeout_nonpositive_immediate "mypipe" 0 0 0 [] (by decide) (by decide)

/-- C6: while the deadline has not passed, a dial attempt that reports
error_sem_timeout makes DialTimeout return the timeout PipeError after
exactly that one attempt and independently of the remaining trace (no
further retry); falling out of the loop at the deadline likewise returns
the timeout PipeError with no further attempt; and both returned errors
answer true to the net.Error timeout query. -/
theorem DialTimeout_semTimeout_authoritative :
    ∀ (address : String) (timeout t0 t1 : Int) (s : DialStep)
      (steps rest : List DialStep),
      (t1 < t0 + timeout →
        s.outcome = Except.error (GoError.errno error_sem_timeout) →
        DialTimeout address timeout t0 t1 (s :: rest) =
          (DialOutcome.err (GoError.pipeError (dialTimeoutMsg address) true), 1)) ∧
      (¬ t1 < t0 + timeout →
        DialTimeout address timeout t0 t1 steps =
          (DialOutcome.err (GoError.pipeError (dialTimeoutMsg address) true), 0)) ∧
      GoError.isNetTimeout (GoError.pipeError (dialTimeoutMsg address) true) = true := by
  intro address timeout t0 t1 s steps rest
  refine ⟨?_, ?_, rfl⟩
  · intro h1 h2
    obtain ⟨o, tn⟩ := s
    simp only at h2
    subst h2
    unfold DialTimeout DialTimeoutLoop
    rw [if_pos h1]
    rfl
  · intro h1
    unfold DialTimeout DialTimeoutLoop
    rw [if_neg h1]

/-- C6 witness: with five nanoseconds of budget left, a sem-timeout
attempt returns the timeout PipeError after one attempt. -/
theorem DialTimeout_semTimeout_authoritative_witness :
    DialTimeout "mypipe" 5 0 0
        [DialStep.mk (Except.error (GoError.errno error_sem_timeout)) 0] =
      (DialOutcome.err (GoError.pipeError (dialTimeoutMsg "mypipe") true), 1) :=
  (DialTimeout_semTimeout_authoritative "mypipe" 5 0 0
      (DialStep.mk (Except.error (GoError.errno error_sem_timeout)) 0) [] []).1
    (by decide) rfl

/-- C5: the code fails to absorb the real server-busy condition.  Every
error the dial helper can produce is a raw errno (WaitNamedPipeW and
CreateFile return raw Errno values; nothing in the source constructs an
os.PathError), and isPipeNotReady classifies the raw busy errno as fatal:
a dial attempt failing with raw ERROR_PIPE_BUSY makes Dial return that
error to the caller immediately, with no backoff sleep and no retry even
when later attempts stand ready, while a file-not-found errno is absorbed
as the claim describes.  Only the PathError-shaped busy error, which the
program never produces, is classified not-ready. -/
theorem Dial_returns_raw_busy_error :
    isPipeNotReady (GoError.errno error_pipe_busy) = false ∧
    Dial [Except.error (GoError.errno error_pipe_busy)] =
      (DialOutcome.err (GoError.errno error_pipe_busy), 0) ∧
    Dial (Except.error (GoError.errno error_pipe_busy) ::
        List.replicate 5 (Except.error (GoError.errno ERROR_FILE_NOT_FOUND))) =
      (DialOutcome.err (GoError.errno error_pipe_busy), 0) ∧
    Dial (List.replicate 5 (Except.error (GoError.errno ERROR_FILE_NOT_FOUND))) =
      (DialOutcome.looping, 500) ∧
    isPipeNotReady (GoError.errno ERROR_FILE_NOT_FOUND) = true ∧
    isPipeNotReady (GoError.pathError "open" "p" error_pipe_busy) = true := by
  decide

/-- A wait environment whose overlapped result reports a broken pipe: the
event is signalled and GetOverlappedResult answers ERROR_BROKEN_PIPE. -/
def brokenWaitEnv : WaitEnv :=
  WaitEnv.mk (fun _ => (WAIT_OBJECT_0, none)) 0 (some (GoError.errno ERROR_BROKEN_PIPE))

/-- C7: a broken-pipe completion status becomes the distinguished
end-of-stream value: a synchronous ERROR_BROKEN_PIPE issue status is
returned as eof with the transferred count kept; a pending request whose
overlapped result reports ERROR_BROKEN_PIPE resolves to eof; and no
completeRequest outcome ever carries the raw ERROR_BROKEN_PIPE errno. -/
theorem completeRequest_brokenPipe_is_EOF :
    (∀ (n : Nat) (dl : Option Int) (now : Int) (env : WaitEnv),
      completeRequest (IoData.mk n (some (GoError.errno ERROR_BROKEN_PIPE))) dl now env =
        (n, some GoError.eof)) ∧
    (∀ (n : Nat) (dl : Option Int) (now : Int) (env : WaitEnv),
      env.wfso (wfsoArg (completeRequestMills dl now)) = (WAIT_OBJECT_0, none) →
      env.resultErr = some (GoError.errno ERROR_BROKEN_PIPE) →
      (completeRequest (IoData.mk n (some (GoError.errno ERROR_IO_PENDING))) dl now env).2 =
        some GoError.eof) ∧
    (∀ (data : IoData) (dl : Option Int) (now : Int) (env : WaitEnv),
      (completeRequest data dl now env).2 ≠ some (GoError.errno ERROR_BROKEN_PIPE)) := by
  refine ⟨fun n dl now env => rfl, ?_, ?_⟩
  · intro n dl now env h1 h2
    unfold completeRequest waitForCompletion
    rw [if_pos (show isPendingErr (some (GoError.errno ERROR_IO_PENDING)) = true from rfl)]
    rw [h1]
    dsimp only
    rw [if_pos rfl, h2]
    rfl
  · intro data dl now env
    unfold completeRequest
    dsimp only
    split
    · split
      · simp
      · next hne2 => simpa using hne2
    · split
      · simp
      · next hne2 => simpa using hne2

/-- C7 witness: a pending read whose overlapped result reports a broken
pipe resolves to eof. -/
theorem completeRequest_brokenPipe_is_EOF_witness :
    (completeRequest (IoData.mk 0 (some (GoError.errno ERROR_IO_PENDING)))
        none 0 brokenWaitEnv).2 = some GoError.eof :=
  completeRequest_brokenPipe_is_EOF.2.1 0 none 0 brokenWaitEnv rfl rfl

/-- The accept environment of the counterexample: ConnectNamedPipe
answers error_pipe_connected (a client already connected), and a fresh
instance with handle 7 would be created if the stored slot were empty. -/
def connectedAcceptEnv : AcceptEnv :=
  AcceptEnv.mk (7, none) none (some (GoError.errno error_pipe_connected)) idleWaitEnv

/-- C3 counterexample: on a listener whose stored handle is 5, the first
Accept succeeds and returns a connection on the stored handle, yet the
stored slot still holds 5 afterwards (it is not set to empty), and a
second Accept again returns the stored handle 5 instead of the fresh
instance 7 the environment stands ready to create. -/
theorem acceptPipe_counterexample :
    (PipeListener._acceptPipe (PipeListener.mk "p" 5 false) 0 connectedAcceptEnv).1 =
      (some (PipeConn.mk 5 "p" none none), none) ∧
    ((PipeListener._acceptPipe (PipeListener.mk "p" 5 false) 0 connectedAcceptEnv).2).handle
      = 5 ∧
    (PipeListener._acceptPipe
        (PipeListener._acceptPipe (PipeListener.mk "p" 5 false) 0 connectedAcceptEnv).2
        0 connectedAcceptEnv).1 =
      (some (PipeConn.mk 5 "p" none none), none) := by
  refine ⟨rfl, rfl, rfl⟩

/-- C3 amended: the accept path never writes the listener, so the stored
slot is unchanged by every Accept; whenever the stored handle is non-zero
every successful Accept — first or later — returns a connection on that
stored handle; and only when the stored handle is zero does a successful
Accept return the freshly created instance handle. -/
theorem acceptPipe_reuses_stored_handle :
    ∀ (l : PipeListener) (mills : Nat) (env : AcceptEnv),
      (PipeListener._acceptPipe l mills env).2 = l ∧
      (l.handle ≠ 0 → ∀ conn : PipeConn,
        ((PipeListener._acceptPipe l mills env).1).1 = some conn →
        conn.handle = l.handle) ∧
      (l.handle = 0 → ∀ conn : PipeConn,
        ((PipeListener._acceptPipe l mills env).1).1 = some conn →
        conn.handle = env.createRes.1) := by
  intro l mills env
  refine ⟨?_, ?_, ?_⟩
  · unfold PipeListener._acceptPipe
    repeat' split
    all_goals rfl
  · intro hne conn hc
    unfold PipeListener._acceptPipe at hc
    rw [if_neg (show ¬ l.handle = 0 from hne)] at hc
    repeat' split at hc
    all_goals (dsimp only at hc)
    all_goals (cases hc <;> simp_all)
  · intro hz conn hc
    unfold PipeListener._acceptPipe at hc
    rw [if_pos hz] at hc
    repeat' split at hc
    all_goals (dsimp only at hc)
    all_goals (cases hc <;> simp_all)

/-- C3 amended witness: on a listener with stored handle 5, a connected
accept returns a connection whose handle equals the stored handle. -/
theorem acceptPipe_reuses_stored_handle_witness :
    PipeConn.handle (PipeConn.mk 5 "p" none none) =
      PipeListener.handle (PipeListener.mk "p" 5 false) :=
  (acceptPipe_reuses_stored_handle (PipeListener.mk "p" 5 false) 0
      connectedAcceptEnv).2.1 (by decide) (PipeConn.mk 5 "p" none none) rfl

/-- Helper: after any Close the closed flag of the listener is set. -/
theorem PipeListener_close_flag_aux :
    ∀ (l : PipeListener) (d : Option GoError),
      (PipeListener.Close l d).listener.closed = true := by
  intro l d
  unfold PipeListener.Close
  split
  · next hcc => simpa using hcc
  · split <;> rfl

/-- Helper: a second Close after any Close is a no-op without error and
without a disconnect. -/
theorem PipeListener_close_sets_flag_aux :
    ∀ (l : PipeListener) (d d2 : Option GoError),
      PipeListener.Close (PipeListener.Close l d).listener d2 =
        CloseOutcome.mk (PipeListener.Close l d).listener none false := by
  intro l d d2
  have hflag := PipeListener_close_flag_aux l d
  generalize hg : PipeListener.Close l d = o at hflag ⊢
  unfold PipeListener.Close
  rw [if_pos hflag]

/-- C8: Close on an already-closed listener returns no error, changes
nothing, and performs no disconnect (idempotence); Close on an open
listener holding a handle sets the closed flag, performs the disconnect,
clears the stored slot, and returns the disconnect outcome; Close on an
open listener holding no handle just sets the flag; a second Close after
any Close is a no-op with no error and no disconnect; and after any Close
every Accept fails with EINVAL, so no Accept succeeds on a closed
listener. -/
theorem PipeListener_Close_idempotent_final :
    ∀ (l : PipeListener) (d d2 : Option GoError) (mills : Nat) (env : AcceptEnv),
      (l.closed = true → PipeListener.Close l d = CloseOutcome.mk l none false) ∧
      (l.closed = false → l.handle ≠ 0 →
        PipeListener.Close l d =
          CloseOutcome.mk (PipeListener.mk l.addr 0 true) d true) ∧
      (l.closed = false → l.handle = 0 →
        PipeListener.Close l d =
          CloseOutcome.mk (PipeListener.mk l.addr 0 true) none false) ∧
      (PipeListener.Close (PipeListener.Close l d).listener d2 =
        CloseOutcome.mk (PipeListener.Close l d).listener none false) ∧
      ((PipeListener._acceptPipe (PipeListener.Close l d).listener mills env).1 =
        (none, some (GoError.errno EINVAL))) := by
  intro l d d2 mills env
  obtain ⟨a, h, c⟩ := l
  refine ⟨?_, ?_, ?_, ?_, ?_⟩
  · intro hc
    subst hc
    rfl
  · intro hc hh
    subst hc
    unfold PipeListener.Close
    rw [if_neg (by simp), if_pos (by simpa using hh)]
  · intro hc hh
    subst hc hh
    rfl
  · exact PipeListener_close_sets_flag_aux (PipeListener.mk a h c) d d2
  · unfold PipeListener._acceptPipe
    rw [if_pos (Or.inr (PipeListener_close_flag_aux (PipeListener.mk a h c) d))]

/-- C8 witness: closing an open listener holding handle 5 disconnects it
and clears the slot; a second Close is a no-op without error; Accept on
the closed listener fails with EINVAL. -/
theorem PipeListener_Close_idempotent_final_witness :
    PipeListener.Close (PipeListener.mk "p" 5 false) none =
      CloseOutcome.mk (PipeListener.mk "p" 0 true) none true ∧
    PipeListener.Close
        (PipeListener.Close (PipeListener.mk "p" 5 false) none).listener none =
      CloseOutcome.mk
        (PipeListener.Close (PipeListener.mk "p" 5 false) none).listener none false ∧
    (PipeListener._acceptPipe
        (PipeListener.Close (PipeListener.mk "p" 5 false) none).listener 0
        connectedAcceptEnv).1 = (none, some (GoError.errno EINVAL)) :=
  ⟨(PipeListener_Close_idempotent_final (PipeListener.mk "p" 5 false) none none 0
      connectedAcceptEnv).2.1 rfl (by decide),
   (PipeListener_Close_idempotent_final (PipeListener.mk "p" 5 false) none none 0
      connectedAcceptEnv).2.2.2.1,
   (PipeListener_Close_idempotent_final (PipeListener.mk "p" 5 false) none none 0
      connectedAcceptEnv).2.2.2.2⟩

end NPipe
